import Mathlib

/-
Verification of the filtered aggregation query layer of the streaming
content analytics dashboard (src/app.py).

The SQLite table `titles` is embedded as a list of `Title` records whose
nullable columns are `Option`-valued; REAL score columns are modelled as
rationals.  Each query function of the source is embedded as a Lean
function from the filter arguments and the table to the list of result
rows, translating the WHERE clause into a `List.filter` predicate, GROUP BY
into grouping over the deduplicated list of keys, ORDER BY into a stable
sort by the order key (SQLite leaves the relative order of ties
unspecified; the embedding fixes one deterministic refinement), and LIMIT
into `List.take`.

SQL three-valued logic matters only through comparisons with NULL, which
are never true; the `sql...` helpers encode this.  The Python condition
builders guard each optional filter with Python truthiness (`if year_min:`,
`if min_imdb and min_imdb > 0:`), which the `passes...` helpers reproduce,
including the collapse of `0` to "unset".
-/

attribute [local semireducible] Rat.mul Rat.inv Rat.add Rat.sub

set_option linter.unusedVariables false

namespace StreamingDashboard

/-- One row of the `titles` table (section 6 of the spec, and the columns
referenced by the queries in src/app.py).  Nullable columns are `Option`. -/
structure Title where
  title : String
  type : String
  release_year : Option Int
  imdb_score : Option Rat
  tmdb_score : Option Rat
  age_certification : Option String
  production_countries : Option String
  seasons : Option Int
deriving DecidableEq

/-- SQLite `UPPER`, which uppercases ASCII letters characterwise.
(`String.toUpper` of core Lean computes the same string but is defined by
non-structural recursion, so the embedding maps over the character list.) -/
def upperString (s : String) : String := String.mk (s.data.map Char.toUpper)

/-- The WHERE condition `UPPER(type) = 'MOVIE'`. -/
def isMovie (r : Title) : Bool := upperString r.type == "MOVIE"

/-- The WHERE condition `UPPER(type) = 'SHOW'`. -/
def isShow (r : Title) : Bool := upperString r.type == "SHOW"

/-- SQL `x >= v` for a nullable integer column: NULL compares to nothing. -/
def sqlGeInt (x : Option Int) (v : Int) : Bool :=
  match x with
  | none => false
  | some y => decide (v ≤ y)

/-- SQL `x <= v` for a nullable integer column: NULL compares to nothing. -/
def sqlLeInt (x : Option Int) (v : Int) : Bool :=
  match x with
  | none => false
  | some y => decide (y ≤ v)

/-- SQL `x >= v` for a nullable REAL column: NULL compares to nothing. -/
def sqlGeRat (x : Option Rat) (v : Rat) : Bool :=
  match x with
  | none => false
  | some s => decide (v ≤ s)

/-- The Python guard `if year_min:` followed by the SQL condition
`release_year >= year_min`: the condition is appended only when `year_min`
is neither `None` nor `0` (Python truthiness). -/
def passesYearMin (year_min : Option Int) (yr : Option Int) : Bool :=
  match year_min with
  | none => true
  | some y => if y != 0 then sqlGeInt yr y else true

/-- The Python guard `if year_max:` followed by the SQL condition
`release_year <= year_max`. -/
def passesYearMax (year_max : Option Int) (yr : Option Int) : Bool :=
  match year_max with
  | none => true
  | some y => if y != 0 then sqlLeInt yr y else true

/-- The Python guard `if min_imdb and min_imdb > 0:` followed by the SQL
condition `imdb_score >= min_imdb`.  The guard requires `min_imdb` to be
truthy (not `None`, not `0`) and strictly positive. -/
def passesMinImdb (min_imdb : Option Rat) (score : Option Rat) : Bool :=
  match min_imdb with
  | none => true
  | some v => if v != 0 && decide (0 < v) then sqlGeRat score v else true

/-- The `content_type` guard shared by the chart queries:
`if content_type and content_type != "All":` appends
`UPPER(type) = 'MOVIE'` when the value is `"Movie"` and
`UPPER(type) = 'SHOW'` otherwise. -/
def passesContentType (content_type : Option String) (r : Title) : Bool :=
  match content_type with
  | none => true
  | some c =>
      if c != "" && c != "All" then
        (if c == "Movie" then isMovie r else isShow r)
      else true

/-- Result row shape of the four ranking queries:
`SELECT title, imdb_score, release_year`. -/
structure RankRow where
  title : String
  imdb_score : Rat
  release_year : Option Int
deriving DecidableEq

/-- Projection of a table row onto the ranking SELECT list.  It is only
applied to rows passing `imdb_score IS NOT NULL`, so the default for the
score is never used. -/
def rankProj (r : Title) : RankRow :=
  { title := r.title, imdb_score := r.imdb_score.getD 0, release_year := r.release_year }

/-- WHERE clause of `get_top_movies` and `get_bottom_movies` (both source
functions build the identical condition list):
`UPPER(type) = 'MOVIE' AND imdb_score IS NOT NULL` plus the optional
year-range and minimum-score conditions. -/
def moviesRankPred (year_min year_max : Option Int) (min_imdb : Option Rat) (r : Title) : Bool :=
  isMovie r && r.imdb_score.isSome && passesYearMin year_min r.release_year
    && passesYearMax year_max r.release_year && passesMinImdb min_imdb r.imdb_score

/-- WHERE clause of `get_top_shows` and `get_bottom_shows`. -/
def showsRankPred (year_min year_max : Option Int) (min_imdb : Option Rat) (r : Title) : Bool :=
  isShow r && r.imdb_score.isSome && passesYearMin year_min r.release_year
    && passesYearMax year_max r.release_year && passesMinImdb min_imdb r.imdb_score

/-- The filtered and projected movie rows before ORDER BY / LIMIT. -/
def rankedMovies (year_min year_max : Option Int) (min_imdb : Option Rat) (db : List Title) :
    List RankRow :=
  (db.filter (moviesRankPred year_min year_max min_imdb)).map rankProj

/-- The filtered and projected show rows before ORDER BY / LIMIT. -/
def rankedShows (year_min year_max : Option Int) (min_imdb : Option Rat) (db : List Title) :
    List RankRow :=
  (db.filter (showsRankPred year_min year_max min_imdb)).map rankProj

/-- `ORDER BY imdb_score DESC` as a relation on result rows. -/
def scoreDesc (a b : RankRow) : Prop := b.imdb_score ≤ a.imdb_score

/-- `ORDER BY imdb_score ASC` as a relation on result rows. -/
def scoreAsc (a b : RankRow) : Prop := a.imdb_score ≤ b.imdb_score

instance : DecidableRel scoreDesc :=
  fun a b => inferInstanceAs (Decidable (b.imdb_score ≤ a.imdb_score))

instance : DecidableRel scoreAsc :=
  fun a b => inferInstanceAs (Decidable (a.imdb_score ≤ b.imdb_score))

instance : IsTotal RankRow scoreDesc := ⟨fun a b => le_total b.imdb_score a.imdb_score⟩

instance : IsTotal RankRow scoreAsc := ⟨fun a b => le_total a.imdb_score b.imdb_score⟩

instance : IsTrans RankRow scoreDesc := ⟨fun a b c hab hbc => le_trans hbc hab⟩

instance : IsTrans RankRow scoreAsc := ⟨fun a b c hab hbc => le_trans hab hbc⟩

/-- `get_top_movies` (src/app.py lines 286-311): filter, order by
`imdb_score DESC`, take `limit` rows. -/
def get_top_movies (limit : Nat) (year_min year_max : Option Int) (min_imdb : Option Rat)
    (db : List Title) : List RankRow :=
  (List.insertionSort scoreDesc (rankedMovies year_min year_max min_imdb db)).take limit

/-- `get_bottom_movies` (src/app.py lines 314-339): same WHERE clause,
order by `imdb_score ASC`, take `limit` rows. -/
def get_bottom_movies (limit : Nat) (year_min year_max : Option Int) (min_imdb : Option Rat)
    (db : List Title) : List RankRow :=
  (List.insertionSort scoreAsc (rankedMovies year_min year_max min_imdb db)).take limit

/-- `get_top_shows` (src/app.py lines 342-367). -/
def get_top_shows (limit : Nat) (year_min year_max : Option Int) (min_imdb : Option Rat)
    (db : List Title) : List RankRow :=
  (List.insertionSort scoreDesc (rankedShows year_min year_max min_imdb db)).take limit

/-- `get_bottom_shows` (src/app.py lines 370-395). -/
def get_bottom_shows (limit : Nat) (year_min year_max : Option Int) (min_imdb : Option Rat)
    (db : List Title) : List RankRow :=
  (List.insertionSort scoreAsc (rankedShows year_min year_max min_imdb db)).take limit

/-! ### Claim C1: a minimum score of exactly 0 applies no lower bound -/

theorem passesMinImdb_zero (score : Option Rat) :
    passesMinImdb (some 0) score = passesMinImdb none score := by
  simp [passesMinImdb]

theorem moviesRankPred_zero (year_min year_max : Option Int) :
    moviesRankPred year_min year_max (some 0) = moviesRankPred year_min year_max none := by
  funext r
  simp [moviesRankPred, passesMinImdb_zero]

theorem showsRankPred_zero (year_min year_max : Option Int) :
    showsRankPred year_min year_max (some 0) = showsRankPred year_min year_max none := by
  funext r
  simp [showsRankPred, passesMinImdb_zero]

/-- C1: for every limit, every year range and every table, calling each of
the four ranking queries with `min_imdb = 0` returns exactly the same
result as calling it with `min_imdb = None`: a minimum-score value of 0
applies no lower bound on `imdb_score`. -/
theorem minScore_zero_equals_unset (limit : Nat) (year_min year_max : Option Int)
    (db : List Title) :
    get_top_movies limit year_min year_max (some 0) db
        = get_top_movies limit year_min year_max none db
      ∧ get_bottom_movies limit year_min year_max (some 0) db
        = get_bottom_movies limit year_min year_max none db
      ∧ get_top_shows limit year_min year_max (some 0) db
        = get_top_shows limit year_min year_max none db
      ∧ get_bottom_shows limit year_min year_max (some 0) db
        = get_bottom_shows limit year_min year_max none db := by
  refine ⟨?_, ?_, ?_, ?_⟩ <;>
    simp [get_top_movies, get_bottom_movies, get_top_shows, get_bottom_shows,
      rankedMovies, rankedShows, moviesRankPred_zero, showsRankPred_zero]

/-! ### Claim C2: ranking outputs are monotone in the score -/

/-- C2: the scores in `get_top_movies` are monotonically non-increasing and
the scores in `get_bottom_movies` are monotonically non-decreasing, for
every choice of filters, limit and table. -/
theorem ranking_scores_monotone (limit : Nat) (year_min year_max : Option Int)
    (min_imdb : Option Rat) (db : List Title) :
    (get_top_movies limit year_min year_max min_imdb db).Pairwise
        (fun a b => b.imdb_score ≤ a.imdb_score)
      ∧ (get_bottom_movies limit year_min year_max min_imdb db).Pairwise
        (fun a b => a.imdb_score ≤ b.imdb_score) := by
  constructor
  · exact List.Pairwise.sublist (List.take_sublist _ _)
      (List.sorted_insertionSort scoreDesc (rankedMovies year_min year_max min_imdb db))
  · exact List.Pairwise.sublist (List.take_sublist _ _)
      (List.sorted_insertionSort scoreAsc (rankedMovies year_min year_max min_imdb db))

/-! ### Claim C3: disjointness of top and bottom rankings -/

/-- In a list sorted non-increasingly by the key `f`, an element of the
first `k` positions is strictly exceeded by fewer than `k` elements. -/
theorem countP_gt_lt_of_mem_take {α : Type} (f : α → Rat) :
    ∀ (s : List α) (k : Nat) (x : α),
      s.Pairwise (fun a b => f b ≤ f a) → x ∈ s.take k →
      s.countP (fun r => decide (f x < f r)) < k := by
  intro s
  induction s with
  | nil => intro k x hp hx; simp at hx
  | cons a t ih =>
    intro k x hp hx
    rcases List.pairwise_cons.mp hp with ⟨ha, hp2⟩
    match k with
    | 0 => simp at hx
    | Nat.succ k =>
      rw [List.take_succ_cons] at hx
      rcases List.mem_cons.mp hx with rfl | hx2
      · rw [List.countP_cons]
        have h0 : List.countP (fun r => decide (f x < f r)) t = 0 :=
          List.countP_eq_zero.mpr (fun r hr => by
            simpa using not_lt.mpr (ha r hr))
        have h1 : decide (f x < f x) = false := decide_eq_false (lt_irrefl (f x))
        rw [h0, h1]
        simp
      · have h2 := ih k x hp2 hx2
        rw [List.countP_cons]
        split <;> omega

/-- In a list sorted non-decreasingly by the key `f`, an element of the
first `k` positions strictly exceeds fewer than `k` elements. -/
theorem countP_lt_lt_of_mem_take {α : Type} (f : α → Rat) :
    ∀ (s : List α) (k : Nat) (x : α),
      s.Pairwise (fun a b => f a ≤ f b) → x ∈ s.take k →
      s.countP (fun r => decide (f r < f x)) < k := by
  intro s
  induction s with
  | nil => intro k x hp hx; simp at hx
  | cons a t ih =>
    intro k x hp hx
    rcases List.pairwise_cons.mp hp with ⟨ha, hp2⟩
    match k with
    | 0 => simp at hx
    | Nat.succ k =>
      rw [List.take_succ_cons] at hx
      rcases List.mem_cons.mp hx with rfl | hx2
      · rw [List.countP_cons]
        have h0 : List.countP (fun r => decide (f r < f x)) t = 0 :=
          List.countP_eq_zero.mpr (fun r hr => by
            simpa using not_lt.mpr (ha r hr))
        have h1 : decide (f x < f x) = false := decide_eq_false (lt_irrefl (f x))
        rw [h0, h1]
        simp
      · have h2 := ih k x hp2 hx2
        rw [List.countP_cons]
        split <;> omega

/-- Every element of a list falls in exactly one of the three key classes
above `c`, below `c`, and at `c`. -/
theorem countP_key_partition {α : Type} (f : α → Rat) (c : Rat) (s : List α) :
    s.countP (fun r => decide (c < f r)) + s.countP (fun r => decide (f r < c))
      + s.countP (fun r => decide (f r = c)) = s.length := by
  induction s with
  | nil => simp
  | cons a t ih =>
    rw [List.countP_cons, List.countP_cons, List.countP_cons, List.length_cons]
    rcases lt_trichotomy c (f a) with h | h | h
    · have h1 : decide (c < f a) = true := decide_eq_true h
      have h2 : decide (f a < c) = false := decide_eq_false (asymm h)
      have h3 : decide (f a = c) = false := decide_eq_false (ne_of_gt h)
      rw [h1, h2, h3]
      simp only [if_pos rfl, if_neg (Bool.false_ne_true), if_true]
      omega
    · have h1 : decide (c < f a) = false := decide_eq_false (by rw [h]; exact lt_irrefl _)
      have h2 : decide (f a < c) = false := decide_eq_false (by rw [h]; exact lt_irrefl _)
      have h3 : decide (f a = c) = true := decide_eq_true h.symm
      rw [h1, h2, h3]
      simp only [if_pos rfl, if_neg (Bool.false_ne_true), if_true]
      omega
    · have h1 : decide (c < f a) = false := decide_eq_false (asymm h)
      have h2 : decide (f a < c) = true := decide_eq_true h
      have h3 : decide (f a = c) = false := decide_eq_false (ne_of_lt h)
      rw [h1, h2, h3]
      simp only [if_pos rfl, if_neg (Bool.false_ne_true), if_true]
      omega

/-- A list whose keys are pairwise distinct has at most one element at any
given key value. -/
theorem countP_key_eq_le_one {α : Type} (f : α → Rat) (c : Rat) :
    ∀ s : List α, s.Pairwise (fun a b => f a ≠ f b) →
      s.countP (fun r => decide (f r = c)) ≤ 1 := by
  intro s
  induction s with
  | nil => intro hp; simp
  | cons a t ih =>
    intro hp
    rcases List.pairwise_cons.mp hp with ⟨ha, hp2⟩
    rw [List.countP_cons]
    by_cases h : f a = c
    · have h0 : List.countP (fun r => decide (f r = c)) t = 0 :=
        List.countP_eq_zero.mpr (fun r hr => by
          simp only [decide_eq_true_eq]
          intro he
          exact ha r hr (h.trans he.symm))
      rw [h0]
      simp [h]
    · have h2 := ih hp2
      have h1 : decide (f a = c) = false := decide_eq_false h
      rw [h1]
      simp
      omega

/-- Two movie rows with the same score: the eligible set for the ranking
queries has two rows carrying equal `imdb_score`. -/
def tieDb : List Title :=
  [ { title := "A", type := "MOVIE", release_year := some 2000, imdb_score := some 5,
      tmdb_score := none, age_certification := none, production_countries := none,
      seasons := none },
    { title := "A", type := "MOVIE", release_year := some 2000, imdb_score := some 5,
      tmdb_score := some 1, age_certification := none, production_countries := none,
      seasons := none } ]

/-- C3 counterexample: on a table with two eligible movie rows that tie on
`imdb_score`, with `limit = 1` (so `2 * limit` is at most the number of
eligible rows) `get_top_movies` and `get_bottom_movies` both return the
same single row, so the claimed disjointness fails. -/
theorem top_bottom_tie_not_disjoint :
    2 * 1 ≤ (tieDb.filter (moviesRankPred none none none)).length
      ∧ ¬ List.Disjoint (get_top_movies 1 none none none tieDb)
          (get_bottom_movies 1 none none none tieDb) := by
  constructor
  · decide
  · intro h
    exact h (a := { title := "A", imdb_score := 5, release_year := some 2000 })
      (by decide) (by decide)

/-- C3 (amended): under the stated bound `2 * limit ≤` number of eligible
rows, and provided additionally that the eligible rows carry pairwise
distinct `imdb_score` values (the counterexample shows the claim fails on
ties), `get_top_movies` and `get_bottom_movies` with the same arguments
return disjoint row sets. -/
theorem top_bottom_movies_disjoint (limit : Nat) (year_min year_max : Option Int)
    (min_imdb : Option Rat) (db : List Title)
    (hdist : (rankedMovies year_min year_max min_imdb db).Pairwise
      (fun a b => a.imdb_score ≠ b.imdb_score))
    (hlim : 2 * limit ≤ (db.filter (moviesRankPred year_min year_max min_imdb)).length) :
    List.Disjoint (get_top_movies limit year_min year_max min_imdb db)
      (get_bottom_movies limit year_min year_max min_imdb db) := by
  intro x hxt hxb
  have hlen : (rankedMovies year_min year_max min_imdb db).length
      = (db.filter (moviesRankPred year_min year_max min_imdb)).length :=
    List.length_map _ _
  have hpermD := List.perm_insertionSort scoreDesc (rankedMovies year_min year_max min_imdb db)
  have hpermA := List.perm_insertionSort scoreAsc (rankedMovies year_min year_max min_imdb db)
  have hcGT : (rankedMovies year_min year_max min_imdb db).countP
      (fun r => decide (x.imdb_score < r.imdb_score)) < limit := by
    have h1 := countP_gt_lt_of_mem_take (fun r : RankRow => r.imdb_score)
      (List.insertionSort scoreDesc (rankedMovies year_min year_max min_imdb db)) limit x
      (List.sorted_insertionSort scoreDesc (rankedMovies year_min year_max min_imdb db)) hxt
    rw [List.Perm.countP_eq _ hpermD] at h1
    exact h1
  have hcLT : (rankedMovies year_min year_max min_imdb db).countP
      (fun r => decide (r.imdb_score < x.imdb_score)) < limit := by
    have h1 := countP_lt_lt_of_mem_take (fun r : RankRow => r.imdb_score)
      (List.insertionSort scoreAsc (rankedMovies year_min year_max min_imdb db)) limit x
      (List.sorted_insertionSort scoreAsc (rankedMovies year_min year_max min_imdb db)) hxb
    rw [List.Perm.countP_eq _ hpermA] at h1
    exact h1
  have hxL : x ∈ rankedMovies year_min year_max min_imdb db :=
    hpermD.mem_iff.mp (List.mem_of_mem_take hxt)
  have hE1 : 0 < (rankedMovies year_min year_max min_imdb db).countP
      (fun r => decide (r.imdb_score = x.imdb_score)) :=
    List.countP_pos_iff.mpr ⟨x, hxL, by simp⟩
  have hE2 : (rankedMovies year_min year_max min_imdb db).countP
      (fun r => decide (r.imdb_score = x.imdb_score)) ≤ 1 :=
    countP_key_eq_le_one (fun r : RankRow => r.imdb_score) x.imdb_score _ hdist
  have hpart := countP_key_partition (fun r : RankRow => r.imdb_score) x.imdb_score
    (rankedMovies year_min year_max min_imdb db)
  rw [hlen] at hpart
  omega

/-- Two movie rows with distinct scores, for instantiating the amended C3. -/
def distinctDb : List Title :=
  [ { title := "A", type := "MOVIE", release_year := some 2000, imdb_score := some 7,
      tmdb_score := none, age_certification := none, production_countries := none,
      seasons := none },
    { title := "B", type := "MOVIE", release_year := some 2001, imdb_score := some 5,
      tmdb_score := none, age_certification := none, production_countries := none,
      seasons := none } ]

/-- Witness for the amended C3 at a concrete table with distinct scores. -/
theorem top_bottom_movies_disjoint_witness :
    (rankedMovies none none none distinctDb).Pairwise
        (fun a b => a.imdb_score ≠ b.imdb_score)
      ∧ 2 * 1 ≤ (distinctDb.filter (moviesRankPred none none none)).length
      ∧ List.Disjoint (get_top_movies 1 none none none distinctDb)
          (get_bottom_movies 1 none none none distinctDb) :=
  ⟨by decide, by decide,
    top_bottom_movies_disjoint 1 none none none distinctDb (by decide) (by decide)⟩

/-! ### Claim C4: production-countries grouping and downstream fan-out -/

/-- Result row shape of `get_production_countries_data`:
`SELECT production_countries, COUNT(*) as count`. -/
structure CountryRow where
  production_countries : String
  count : Nat
deriving DecidableEq

/-- WHERE clause of `get_production_countries_data` (src/app.py lines
397-435): `production_countries IS NOT NULL AND production_countries != ''
AND production_countries != '[]'` plus the optional guarded filters. -/
def countriesPred (year_min year_max : Option Int) (min_imdb : Option Rat)
    (content_type : Option String) (r : Title) : Bool :=
  (match r.production_countries with
    | none => false
    | some s => s != "" && s != "[]")
    && passesContentType content_type r && passesYearMin year_min r.release_year
    && passesYearMax year_max r.release_year && passesMinImdb min_imdb r.imdb_score

/-- `ORDER BY count DESC` as a relation on country result rows. -/
def countDesc (a b : CountryRow) : Prop := b.count ≤ a.count

instance : DecidableRel countDesc :=
  fun a b => inferInstanceAs (Decidable (b.count ≤ a.count))

instance : IsTotal CountryRow countDesc := ⟨fun a b => Nat.le_total b.count a.count⟩

instance : IsTrans CountryRow countDesc := ⟨fun a b c hab hbc => Nat.le_trans hbc hab⟩

/-- `get_production_countries_data`: group the filtered rows by the raw
encoded `production_countries` string, count each group, order by count
descending, and keep at most 50 groups.  (`LIMIT 50`.) -/
def get_production_countries_data (year_min year_max : Option Int) (min_imdb : Option Rat)
    (content_type : Option String) (db : List Title) : List CountryRow :=
  (List.insertionSort countDesc
    (((db.filter (countriesPred year_min year_max min_imdb content_type)).map
        (fun r => r.production_countries.getD "")).dedup.map
      (fun k =>
        { production_countries := k,
          count := (db.filter (countriesPred year_min year_max min_imdb content_type)).countP
            (fun r => r.production_countries.getD "" == k) }))).take 50

/-- One iteration of the presentation loop body
`country_counts[code] = country_counts.get(code, 0) + row['count']`
executed for every code of the decoded list. -/
def bumpCodes (m : String → Nat) (codes : List String) (cnt : Nat) : String → Nat :=
  codes.foldl (fun acc code => Function.update acc code (acc code + cnt)) m

/-- The presentation-step fan-out over the grouped rows (src/app.py lines
739-748).  `decode` abstracts `ast.literal_eval` together with the
`isinstance(countries, list)` check: `none` means the decode failed or did
not produce a list, in which case the row is skipped silently. -/
def country_counts (decode : String → Option (List String)) (rows : List CountryRow) :
    String → Nat :=
  rows.foldl (fun acc g =>
    match decode g.production_countries with
    | some codes => bumpCodes acc codes g.count
    | none => acc) (fun _ => 0)

theorem bumpCodes_apply (cnt : Nat) (code : String) :
    ∀ (codes : List String) (m : String → Nat),
      bumpCodes m codes cnt code = m code + codes.count code * cnt := by
  intro codes
  induction codes with
  | nil => intro m; simp [bumpCodes]
  | cons a cs ih =>
    intro m
    have hstep : bumpCodes m (a :: cs) cnt
        = bumpCodes (Function.update m a (m a + cnt)) cs cnt := rfl
    rw [hstep, ih, Function.update_apply]
    by_cases hc : code = a
    · subst hc
      rw [if_pos rfl, List.count_cons_self]
      ring
    · rw [if_neg hc, List.count_cons_of_ne hc]

theorem country_counts_loop (decode : String → Option (List String)) (code : String) :
    ∀ (rows : List CountryRow) (m : String → Nat),
      (rows.foldl (fun acc g =>
        match decode g.production_countries with
        | some codes => bumpCodes acc codes g.count
        | none => acc) m) code
      = m code + (rows.map (fun g =>
          match decode g.production_countries with
          | some codes => codes.count code * g.count
          | none => 0)).sum := by
  intro rows
  induction rows with
  | nil => intro m; simp
  | cons g gs ih =>
    intro m
    rw [List.foldl_cons, List.map_cons, List.sum_cons]
    cases hd : decode g.production_countries with
    | none =>
        simp only [hd]
        rw [ih]
        omega
    | some codes =>
        simp only [hd]
        rw [ih, bumpCodes_apply]
        ring

/-- C4: for every filter set, `get_production_countries_data` groups by the
raw encoded country-list string — at most 50 groups, pairwise-distinct raw
strings, counts ordered descending, every group stemming from filtered rows
whose `production_countries` is non-NULL and neither `''` nor `'[]'`, with
the group count equal to the number of such rows carrying that exact raw
string — while the per-country fan-out happens only in the downstream
`country_counts` step, which adds each group's count to the total of every
country code decoded from its list (so one grouped row contributes to
multiple country totals). -/
theorem production_countries_contract (year_min year_max : Option Int) (min_imdb : Option Rat)
    (content_type : Option String) (db : List Title) :
    (get_production_countries_data year_min year_max min_imdb content_type db).length ≤ 50
      ∧ (get_production_countries_data year_min year_max min_imdb content_type db).Pairwise
          (fun a b => b.count ≤ a.count)
      ∧ (get_production_countries_data year_min year_max min_imdb content_type db).Pairwise
          (fun a b => a.production_countries ≠ b.production_countries)
      ∧ (∀ g, g ∈ get_production_countries_data year_min year_max min_imdb content_type db →
          g.production_countries ≠ "" ∧ g.production_countries ≠ "[]"
            ∧ (∃ r, r ∈ db ∧ countriesPred year_min year_max min_imdb content_type r = true
                ∧ r.production_countries = some g.production_countries)
            ∧ g.count = (db.filter (countriesPred year_min year_max min_imdb content_type)).countP
                (fun r => r.production_countries.getD "" == g.production_countries))
      ∧ (∀ (decode : String → Option (List String)) (code : String),
          country_counts decode
              (get_production_countries_data year_min year_max min_imdb content_type db) code
            = ((get_production_countries_data year_min year_max min_imdb content_type db).map
                (fun g =>
                  match decode g.production_countries with
                  | some codes => codes.count code * g.count
                  | none => 0)).sum) := by
  have hperm := List.perm_insertionSort countDesc
    (((db.filter (countriesPred year_min year_max min_imdb content_type)).map
        (fun r => r.production_countries.getD "")).dedup.map
      (fun k =>
        { production_countries := k,
          count := (db.filter (countriesPred year_min year_max min_imdb content_type)).countP
            (fun r => r.production_countries.getD "" == k) : CountryRow }))
  refine ⟨List.length_take_le _ _, ?_, ?_, ?_, ?_⟩
  · exact List.Pairwise.sublist (List.take_sublist _ _)
      (List.sorted_insertionSort countDesc _)
  · refine List.Pairwise.sublist (List.take_sublist _ _) ?_
    refine (hperm.pairwise_iff (fun h => (Ne.symm h)) ).mpr ?_
    exact List.pairwise_map.mpr
      ((List.nodup_dedup _).imp (fun h => h))
  · intro g hg
    have hrows : g ∈ (((db.filter (countriesPred year_min year_max min_imdb content_type)).map
        (fun r => r.production_countries.getD "")).dedup.map
      (fun k =>
        { production_countries := k,
          count := (db.filter (countriesPred year_min year_max min_imdb content_type)).countP
            (fun r => r.production_countries.getD "" == k) : CountryRow })) :=
      hperm.mem_iff.mp (List.mem_of_mem_take hg)
    rcases List.mem_map.mp hrows with ⟨k, hk, hgk⟩
    rcases List.mem_map.mp (List.mem_dedup.mp hk) with ⟨r, hrelig, hrk⟩
    rcases List.mem_filter.mp hrelig with ⟨hrdb, hrpred⟩
    have hpc : ∃ s, r.production_countries = some s ∧ s ≠ "" ∧ s ≠ "[]" := by
      have h1 : (match r.production_countries with
          | none => false
          | some s => s != "" && s != "[]") = true := by
        have := hrpred
        unfold countriesPred at this
        simp only [Bool.and_eq_true] at this
        exact this.1.1.1.1
      cases hx : r.production_countries with
      | none => rw [hx] at h1; exact absurd h1 (by simp)
      | some s =>
          rw [hx] at h1
          simp only [Bool.and_eq_true, bne_iff_ne, ne_eq] at h1
          exact ⟨s, rfl, h1.1, h1.2⟩
    rcases hpc with ⟨s, hs, hs1, hs2⟩
    have hks : k = s := by rw [← hrk, hs]; rfl
    subst hgk
    refine ⟨by simpa [hks] using hs1, by simpa [hks] using hs2, ⟨r, hrdb, hrpred, ?_⟩, rfl⟩
    rw [hs, hks]
  · intro decode code
    rw [country_counts, country_counts_loop]
    exact Nat.zero_add _

/-! ### Claim C5: decade histogram -/

/-- Result row shape of `get_decade_data`:
`SELECT (FLOOR(release_year / 10) * 10) as decade, type, COUNT(*) as count`. -/
structure DecadeRow where
  decade : Int
  type : String
  count : Nat
deriving DecidableEq

/-- WHERE clause of `get_decade_data` (src/app.py lines 437-474):
`release_year IS NOT NULL AND release_year >= 1940` plus the optional
guarded filters. -/
def decadePred (year_min year_max : Option Int) (min_imdb : Option Rat)
    (content_type : Option String) (r : Title) : Bool :=
  (match r.release_year with
    | none => false
    | some y => decide (1940 ≤ y))
    && passesContentType content_type r && passesYearMin year_min r.release_year
    && passesYearMax year_max r.release_year && passesMinImdb min_imdb r.imdb_score

/-- `(FLOOR(release_year / 10) * 10)`.  SQLite divides the two integers
first (exactly, on the years at least 1940 admitted by the WHERE clause,
since both operands are non-negative) and `FLOOR` is the identity on the
resulting integer. -/
def decadeOf (y : Int) : Int := y / 10 * 10

/-- The GROUP BY key `decade, type` of a row (rows reaching the grouping
always have a non-NULL `release_year`). -/
def decadeKey (r : Title) : Int × String := (decadeOf (r.release_year.getD 0), r.type)

/-- `ORDER BY decade` as a relation on decade result rows. -/
def decAsc (a b : DecadeRow) : Prop := a.decade ≤ b.decade

instance : DecidableRel decAsc :=
  fun a b => inferInstanceAs (Decidable (a.decade ≤ b.decade))

instance : IsTotal DecadeRow decAsc := ⟨fun a b => Int.le_total a.decade b.decade⟩

instance : IsTrans DecadeRow decAsc := ⟨fun a b c hab hbc => Int.le_trans hab hbc⟩

/-- `get_decade_data`: group the filtered rows by `(decade, type)`, count
each group, order by decade ascending.  No LIMIT clause. -/
def get_decade_data (year_min year_max : Option Int) (min_imdb : Option Rat)
    (content_type : Option String) (db : List Title) : List DecadeRow :=
  List.insertionSort decAsc
    (((db.filter (decadePred year_min year_max min_imdb content_type)).map decadeKey).dedup.map
      (fun k =>
        { decade := k.1, type := k.2,
          count := (db.filter (decadePred year_min year_max min_imdb content_type)).countP
            (fun r => decadeKey r == k) }))

theorem decadePred_year (year_min year_max : Option Int) (min_imdb : Option Rat)
    (content_type : Option String) (r : Title)
    (h : decadePred year_min year_max min_imdb content_type r = true) :
    ∃ y, r.release_year = some y ∧ 1940 ≤ y := by
  have h1 : (match r.release_year with
      | none => false
      | some y => decide (1940 ≤ y)) = true := by
    unfold decadePred at h
    simp only [Bool.and_eq_true] at h
    exact h.1.1.1.1
  cases hx : r.release_year with
  | none => rw [hx] at h1; exact absurd h1 (by simp)
  | some y =>
      rw [hx] at h1
      exact ⟨y, rfl, of_decide_eq_true h1⟩

/-- A single movie row released in 1987. -/
def row1987 : Title :=
  { title := "M87", type := "MOVIE", release_year := some 1987, imdb_score := none,
    tmdb_score := none, age_certification := none, production_countries := none,
    seasons := none }

/-- A single movie row released in 1939, below the 1940 floor. -/
def row1939 : Title :=
  { title := "M39", type := "MOVIE", release_year := some 1939, imdb_score := none,
    tmdb_score := none, age_certification := none, production_countries := none,
    seasons := none }

/-- C5: `get_decade_data` buckets each eligible row by
`floor(release_year / 10) * 10` together with its `type`, admits only rows
with a non-NULL `release_year` of at least 1940, and orders the output by
decade ascending; every output group carries the decade of one of its rows
and counts exactly the eligible rows sharing its `(decade, type)` key, and
every eligible row is represented by a group with its own key.  On the
concrete single-row tables, the 1987 row lands in bucket 1980 and the 1939
row is excluded entirely. -/
theorem decade_histogram_contract (year_min year_max : Option Int) (min_imdb : Option Rat)
    (content_type : Option String) (db : List Title) :
    (get_decade_data year_min year_max min_imdb content_type db).Pairwise
        (fun a b => a.decade ≤ b.decade)
      ∧ (∀ g, g ∈ get_decade_data year_min year_max min_imdb content_type db →
          ∃ r, r ∈ db ∧ decadePred year_min year_max min_imdb content_type r = true
            ∧ (∃ y, r.release_year = some y ∧ 1940 ≤ y ∧ g.decade = y / 10 * 10)
            ∧ g.type = r.type
            ∧ g.count = (db.filter (decadePred year_min year_max min_imdb content_type)).countP
                (fun r => decadeKey r == (g.decade, g.type)))
      ∧ (∀ r, r ∈ db → decadePred year_min year_max min_imdb content_type r = true →
          ∃ g, g ∈ get_decade_data year_min year_max min_imdb content_type db
            ∧ (∃ y, r.release_year = some y ∧ g.decade = y / 10 * 10)
            ∧ g.type = r.type)
      ∧ get_decade_data none none none none [row1987]
          = [{ decade := 1980, type := "MOVIE", count := 1 }]
      ∧ get_decade_data none none none none [row1939] = [] := by
  have hperm := List.perm_insertionSort decAsc
    (((db.filter (decadePred year_min year_max min_imdb content_type)).map decadeKey).dedup.map
      (fun k =>
        { decade := k.1, type := k.2,
          count := (db.filter (decadePred year_min year_max min_imdb content_type)).countP
            (fun r => decadeKey r == k) : DecadeRow }))
  refine ⟨List.sorted_insertionSort decAsc _, ?_, ?_, by decide, by decide⟩
  · intro g hg
    have hrows := hperm.mem_iff.mp hg
    rcases List.mem_map.mp hrows with ⟨k, hk, hgk⟩
    rcases List.mem_map.mp (List.mem_dedup.mp hk) with ⟨r, hrelig, hrk⟩
    rcases List.mem_filter.mp hrelig with ⟨hrdb, hrpred⟩
    rcases decadePred_year year_min year_max min_imdb content_type r hrpred with ⟨y, hy, hy40⟩
    refine ⟨r, hrdb, hrpred, ⟨y, hy, hy40, ?_⟩, ?_, ?_⟩
    · rw [← hgk, ← hrk]
      show (decadeKey r).1 = y / 10 * 10
      rw [decadeKey, hy]
      rfl
    · rw [← hgk, ← hrk]
      rfl
    · rw [← hgk]
  · intro r hrdb hrpred
    rcases decadePred_year year_min year_max min_imdb content_type r hrpred with ⟨y, hy, hy40⟩
    refine ⟨DecadeRow.mk (decadeKey r).1 (decadeKey r).2
        ((db.filter (decadePred year_min year_max min_imdb content_type)).countP
          (fun x => decadeKey x == decadeKey r)), ?_, ⟨y, hy, ?_⟩, rfl⟩
    · apply hperm.mem_iff.mpr
      apply List.mem_map.mpr
      refine ⟨decadeKey r, ?_, rfl⟩
      exact List.mem_dedup.mpr (List.mem_map.mpr
        ⟨r, List.mem_filter.mpr ⟨hrdb, hrpred⟩, rfl⟩)
    · show (decadeKey r).1 = y / 10 * 10
      rw [decadeKey, hy]
      rfl

/-- Witness for C5 at the concrete one-row 1987 table: the eligible row is
represented by an output group in its decade bucket. -/
theorem decade_histogram_contract_witness :
    ∃ g, g ∈ get_decade_data none none none none [row1987]
      ∧ (∃ y, row1987.release_year = some y ∧ g.decade = y / 10 * 10)
      ∧ g.type = row1987.type :=
  (decade_histogram_contract none none none none [row1987]).2.2.1 row1987
    (by decide) (by decide)

/-! ### Claims C6 and C10: top shows by total seasons -/

/-- Result row shape of `get_top_seasons_shows`:
`SELECT title, SUM(seasons) as total_seasons, release_year`. -/
structure SeasonRow where
  title : String
  total_seasons : Int
  release_year : Option Int
deriving DecidableEq

/-- WHERE clause of `get_top_seasons_shows` (src/app.py lines 517-547):
`UPPER(type) = 'SHOW' AND seasons IS NOT NULL` plus the optional guarded
filters. -/
def seasonsPred (year_min year_max : Option Int) (min_imdb : Option Rat) (r : Title) : Bool :=
  isShow r && r.seasons.isSome && passesYearMin year_min r.release_year
    && passesYearMax year_max r.release_year && passesMinImdb min_imdb r.imdb_score

/-- The rows eligible for the seasons ranking. -/
def seasonsEligible (year_min year_max : Option Int) (min_imdb : Option Rat)
    (db : List Title) : List Title :=
  db.filter (seasonsPred year_min year_max min_imdb)

/-- The `GROUP BY title` group of one title. -/
def titleGroup (year_min year_max : Option Int) (min_imdb : Option Rat) (db : List Title)
    (t : String) : List Title :=
  (seasonsEligible year_min year_max min_imdb db).filter (fun r => r.title == t)

/-- One output row of the grouped query: `SUM(seasons)` over the group, and
the bare non-aggregated `release_year` column, for which SQLite reports the
value from one unspecified row of the group — the embedding fixes the last
group row in table order as its deterministic refinement. -/
def seasonsGroupRow (year_min year_max : Option Int) (min_imdb : Option Rat) (db : List Title)
    (t : String) : SeasonRow :=
  SeasonRow.mk t
    (((titleGroup year_min year_max min_imdb db t).map (fun r => r.seasons.getD 0)).sum)
    (match (titleGroup year_min year_max min_imdb db t).getLast? with
      | some r => r.release_year
      | none => none)

/-- `ORDER BY total_seasons DESC` as a relation on season result rows. -/
def seasonsDesc (a b : SeasonRow) : Prop := b.total_seasons ≤ a.total_seasons

instance : DecidableRel seasonsDesc :=
  fun a b => inferInstanceAs (Decidable (b.total_seasons ≤ a.total_seasons))

instance : IsTotal SeasonRow seasonsDesc := ⟨fun a b => Int.le_total b.total_seasons a.total_seasons⟩

instance : IsTrans SeasonRow seasonsDesc := ⟨fun a b c hab hbc => Int.le_trans hbc hab⟩

/-- `get_top_seasons_shows`: group the filtered rows by `title`, sum each
group's `seasons`, order by the total descending, take `limit` rows. -/
def get_top_seasons_shows (limit : Nat) (year_min year_max : Option Int) (min_imdb : Option Rat)
    (db : List Title) : List SeasonRow :=
  (List.insertionSort seasonsDesc
    (((seasonsEligible year_min year_max min_imdb db).map Title.title).dedup.map
      (seasonsGroupRow year_min year_max min_imdb db))).take limit

/-- The rows of the worked example of the spec: one title "X" with two
eligible rows carrying 3 and 4 seasons. -/
def showsDbX : List Title :=
  [ { title := "X", type := "SHOW", release_year := some 2020, imdb_score := none,
      tmdb_score := none, age_certification := none, production_countries := none,
      seasons := some 3 },
    { title := "X", type := "SHOW", release_year := some 2021, imdb_score := none,
      tmdb_score := none, age_certification := none, production_countries := none,
      seasons := some 4 } ]

/-- C6: `get_top_seasons_shows` returns rows with pairwise distinct titles,
each row's `total_seasons` equal to the sum of `seasons` over all eligible
rows with that title, ordered by total seasons descending; in the concrete
two-row table for title "X" with 3 and 4 seasons, the returned total is 7. -/
theorem top_seasons_shows_contract (limit : Nat) (year_min year_max : Option Int)
    (min_imdb : Option Rat) (db : List Title) :
    (get_top_seasons_shows limit year_min year_max min_imdb db).Pairwise
        (fun a b => b.total_seasons ≤ a.total_seasons)
      ∧ (get_top_seasons_shows limit year_min year_max min_imdb db).Pairwise
          (fun a b => a.title ≠ b.title)
      ∧ (∀ g, g ∈ get_top_seasons_shows limit year_min year_max min_imdb db →
          g.total_seasons = (((db.filter (seasonsPred year_min year_max min_imdb)).filter
            (fun r => r.title == g.title)).map (fun r => r.seasons.getD 0)).sum)
      ∧ get_top_seasons_shows 10 none none none showsDbX
          = [SeasonRow.mk "X" 7 (some 2021)] := by
  have hperm := List.perm_insertionSort seasonsDesc
    (((seasonsEligible year_min year_max min_imdb db).map Title.title).dedup.map
      (seasonsGroupRow year_min year_max min_imdb db))
  refine ⟨?_, ?_, ?_, by decide⟩
  · exact List.Pairwise.sublist (List.take_sublist _ _)
      (List.sorted_insertionSort seasonsDesc _)
  · refine List.Pairwise.sublist (List.take_sublist _ _) ?_
    refine (hperm.pairwise_iff (fun h => (Ne.symm h))).mpr ?_
    exact List.pairwise_map.mpr ((List.nodup_dedup _).imp (fun h => h))
  · intro g hg
    have hrows := hperm.mem_iff.mp (List.mem_of_mem_take hg)
    rcases List.mem_map.mp hrows with ⟨t, ht, hgt⟩
    rw [← hgt]
    rfl

/-- C10: the `release_year` reported by `get_top_seasons_shows` for a group
is the `release_year` of one of that title's eligible rows (a bare
non-aggregated column under `GROUP BY title`), not an aggregate of them. -/
theorem top_seasons_release_year_from_group (limit : Nat) (year_min year_max : Option Int)
    (min_imdb : Option Rat) (db : List Title) :
    ∀ g, g ∈ get_top_seasons_shows limit year_min year_max min_imdb db →
      ∃ r, r ∈ db ∧ seasonsPred year_min year_max min_imdb r = true
        ∧ r.title = g.title ∧ g.release_year = r.release_year := by
  have hperm := List.perm_insertionSort seasonsDesc
    (((seasonsEligible year_min year_max min_imdb db).map Title.title).dedup.map
      (seasonsGroupRow year_min year_max min_imdb db))
  intro g hg
  have hrows := hperm.mem_iff.mp (List.mem_of_mem_take hg)
  rcases List.mem_map.mp hrows with ⟨t, ht, hgt⟩
  rcases List.mem_map.mp (List.mem_dedup.mp ht) with ⟨r0, hr0elig, hr0t⟩
  have hr0grp : r0 ∈ titleGroup year_min year_max min_imdb db t :=
    List.mem_filter.mpr ⟨hr0elig, by rw [hr0t]; exact beq_self_eq_true t⟩
  have hne : titleGroup year_min year_max min_imdb db t ≠ [] :=
    List.ne_nil_of_mem hr0grp
  have hlast := List.getLast?_eq_getLast_of_ne_nil hne
  have hrgrp := List.getLast_mem hne
  rcases List.mem_filter.mp hrgrp with ⟨hrelig, hrt⟩
  rcases List.mem_filter.mp hrelig with ⟨hrdb, hrpred⟩
  refine ⟨(titleGroup year_min year_max min_imdb db t).getLast hne, hrdb, hrpred, ?_, ?_⟩
  · rw [← hgt]
    exact eq_of_beq hrt
  · rw [← hgt]
    show (seasonsGroupRow year_min year_max min_imdb db t).release_year = _
    rw [seasonsGroupRow, hlast]

/-- Witness for C10 at the concrete two-row table for title "X". -/
theorem top_seasons_release_year_from_group_witness :
    ∃ r, r ∈ showsDbX ∧ seasonsPred none none none r = true
      ∧ r.title = (SeasonRow.mk "X" 7 (some 2021)).title
      ∧ (SeasonRow.mk "X" 7 (some 2021)).release_year = r.release_year :=
  top_seasons_release_year_from_group 10 none none none showsDbX
    (SeasonRow.mk "X" 7 (some 2021)) (by decide)

/-! ### Claim C7: average scores by type -/

/-- Floor of a rational number, computed as floor division of the numerator
by the (positive) denominator. -/
def ratFloor (x : Rat) : Int := Int.fdiv x.num x.den

/-- SQLite `ROUND(x, N)` rounds half away from zero. -/
def ratRoundHalfAway (x : Rat) : Int :=
  if 0 ≤ x then ratFloor (x + 1/2) else -(ratFloor (-x + 1/2))

/-- SQLite `ROUND(x, 2)`: round to two decimal places, halves away from
zero. -/
def round2 (x : Rat) : Rat := ((ratRoundHalfAway (x * 100) : Int) : Rat) / 100

/-- SQL `AVG` over the values of a group. -/
def avgList (l : List Rat) : Rat := l.sum / (l.length : Rat)

/-- Result row shape of `get_avg_scores_by_type`: `SELECT type,
ROUND(AVG(imdb_score), 2) as avg_imdb_score, ROUND(AVG(tmdb_score), 2) as
avg_tmdb_score`. -/
structure AvgRow where
  type : String
  avg_imdb_score : Rat
  avg_tmdb_score : Rat
deriving DecidableEq

/-- WHERE clause of `get_avg_scores_by_type` (src/app.py lines 549-579):
`imdb_score IS NOT NULL AND tmdb_score IS NOT NULL` plus the optional
guarded filters (this query has no content-type argument). -/
def avgPred (year_min year_max : Option Int) (min_imdb : Option Rat) (r : Title) : Bool :=
  r.imdb_score.isSome && r.tmdb_score.isSome && passesYearMin year_min r.release_year
    && passesYearMax year_max r.release_year && passesMinImdb min_imdb r.imdb_score

/-- The `GROUP BY type` group of one raw type string. -/
def typeGroup (year_min year_max : Option Int) (min_imdb : Option Rat) (db : List Title)
    (t : String) : List Title :=
  (db.filter (avgPred year_min year_max min_imdb)).filter (fun r => r.type == t)

/-- One output row of the grouped query: the rounded averages of both
score columns over the group. -/
def avgGroupRow (year_min year_max : Option Int) (min_imdb : Option Rat) (db : List Title)
    (t : String) : AvgRow :=
  AvgRow.mk t
    (round2 (avgList ((typeGroup year_min year_max min_imdb db t).map
      (fun r => r.imdb_score.getD 0))))
    (round2 (avgList ((typeGroup year_min year_max min_imdb db t).map
      (fun r => r.tmdb_score.getD 0))))

/-- `get_avg_scores_by_type`: group the filtered rows by the raw `type`
string and report the rounded per-group averages.  The query has no ORDER
BY and no LIMIT. -/
def get_avg_scores_by_type (year_min year_max : Option Int) (min_imdb : Option Rat)
    (db : List Title) : List AvgRow :=
  ((db.filter (avgPred year_min year_max min_imdb)).map Title.type).dedup.map
    (avgGroupRow year_min year_max min_imdb db)

/-- Three rows whose `type` strings are case variants that all uppercase to
`MOVIE`, each with both scores present. -/
def caseDb : List Title :=
  [ { title := "A", type := "MOVIE", release_year := some 2000, imdb_score := some 8,
      tmdb_score := some 7, age_certification := none, production_countries := none,
      seasons := none },
    { title := "B", type := "Movie", release_year := some 2001, imdb_score := some 6,
      tmdb_score := some 6, age_certification := none, production_countries := none,
      seasons := none },
    { title := "C", type := "movie", release_year := some 2002, imdb_score := some 4,
      tmdb_score := some 5, age_certification := none, production_countries := none,
      seasons := none } ]

/-- C7 counterexample: `get_avg_scores_by_type` groups by the raw `type`
string, so a table whose rows all resolve case-insensitively to the single
enum variant MOVIE but spell it in three casings yields three output rows,
refuting the claimed bound of at most two rows per the two enum variants. -/
theorem avg_scores_three_rows_for_one_variant :
    (∀ r, r ∈ caseDb → upperString r.type = "MOVIE")
      ∧ ¬ (get_avg_scores_by_type none none none caseDb).length ≤ 2 := by
  constructor
  · decide
  · decide

/-- C7 (amended): `get_avg_scores_by_type` computes its averages only over
rows with both scores present (the WHERE clause of `avgPred`), each
reported average is `ROUND(AVG(...), 2)` of its group and in particular an
integer number of hundredths, and there is one row per distinct raw `type`
string of the eligible rows; the row count is bounded by 2 provided the
eligible rows spell `type` as exactly `MOVIE` or `SHOW` (by the
counterexample, raw-string grouping exceeds 2 rows on mixed casings even
when every row resolves case-insensitively to one variant). -/
theorem avg_scores_by_type_contract (year_min year_max : Option Int) (min_imdb : Option Rat)
    (db : List Title) :
    (get_avg_scores_by_type year_min year_max min_imdb db).Pairwise
        (fun a b => a.type ≠ b.type)
      ∧ (∀ g, g ∈ get_avg_scores_by_type year_min year_max min_imdb db →
          (∃ k : Int, g.avg_imdb_score = (k : Rat) / 100)
            ∧ (∃ k : Int, g.avg_tmdb_score = (k : Rat) / 100)
            ∧ g.avg_imdb_score = round2 (avgList (((db.filter
                (avgPred year_min year_max min_imdb)).filter
                  (fun r => r.type == g.type)).map (fun r => r.imdb_score.getD 0)))
            ∧ g.avg_tmdb_score = round2 (avgList (((db.filter
                (avgPred year_min year_max min_imdb)).filter
                  (fun r => r.type == g.type)).map (fun r => r.tmdb_score.getD 0)))
            ∧ (∃ r, r ∈ db ∧ avgPred year_min year_max min_imdb r = true ∧ r.type = g.type))
      ∧ ((∀ r, r ∈ db → avgPred year_min year_max min_imdb r = true →
            r.type = "MOVIE" ∨ r.type = "SHOW") →
          (get_avg_scores_by_type year_min year_max min_imdb db).length ≤ 2) := by
  refine ⟨?_, ?_, ?_⟩
  · exact List.pairwise_map.mpr ((List.nodup_dedup _).imp (fun h => h))
  · intro g hg
    rcases List.mem_map.mp hg with ⟨t, ht, hgt⟩
    rcases List.mem_map.mp (List.mem_dedup.mp ht) with ⟨r, hrelig, hrt⟩
    rcases List.mem_filter.mp hrelig with ⟨hrdb, hrpred⟩
    refine ⟨?_, ?_, ?_, ?_, ⟨r, hrdb, hrpred, ?_⟩⟩
    · exact ⟨ratRoundHalfAway ((avgList ((typeGroup year_min year_max min_imdb db t).map
        (fun x => x.imdb_score.getD 0))) * 100), by rw [← hgt]; rfl⟩
    · exact ⟨ratRoundHalfAway ((avgList ((typeGroup year_min year_max min_imdb db t).map
        (fun x => x.tmdb_score.getD 0))) * 100), by rw [← hgt]; rfl⟩
    · rw [← hgt]; rfl
    · rw [← hgt]; rfl
    · rw [← hgt]; exact hrt
  · intro hall
    rw [get_avg_scores_by_type, List.length_map]
    have hnd := List.nodup_dedup ((db.filter (avgPred year_min year_max min_imdb)).map Title.type)
    have hsub : ((db.filter (avgPred year_min year_max min_imdb)).map Title.type).dedup.toFinset
        ⊆ ({"MOVIE", "SHOW"} : Finset String) := by
      intro x hx
      rcases List.mem_map.mp (List.mem_dedup.mp (List.mem_toFinset.mp hx)) with ⟨r, hr, hrx⟩
      rcases List.mem_filter.mp hr with ⟨hrdb, hrpred⟩
      rcases hall r hrdb hrpred with h | h
      · rw [Finset.mem_insert]
        left
        rw [← hrx, h]
      · rw [Finset.mem_insert, Finset.mem_singleton]
        right
        rw [← hrx, h]
    calc ((db.filter (avgPred year_min year_max min_imdb)).map Title.type).dedup.length
        = ((db.filter (avgPred year_min year_max min_imdb)).map Title.type).dedup.toFinset.card :=
          (List.toFinset_card_of_nodup hnd).symm
      _ ≤ ({"MOVIE", "SHOW"} : Finset String).card := Finset.card_le_card hsub
      _ ≤ 2 := by
          apply le_trans (Finset.card_insert_le _ _)
          simp

/-- A single movie row with both scores, for instantiating the amended C7. -/
def avgDb : List Title :=
  [ { title := "A", type := "MOVIE", release_year := some 2000, imdb_score := some 8,
      tmdb_score := some 7, age_certification := none, production_countries := none,
      seasons := none } ]

/-- Witness for the amended C7 at a concrete consistently-cased table. -/
theorem avg_scores_by_type_contract_witness :
    (∀ r, r ∈ avgDb → avgPred none none none r = true → r.type = "MOVIE" ∨ r.type = "SHOW")
      ∧ (get_avg_scores_by_type none none none avgDb).length ≤ 2 :=
  ⟨by decide, (avg_scores_by_type_contract none none none avgDb).2.2 (by decide)⟩

/-! ### Claim C8: failure semantics -/

/-- `verify_database_exists` (src/app.py lines 215-233), modelled on the
two observable properties of the store file it tests.  A `some` result is
the `st.error(...)` diagnostic followed by `st.stop()` — the process halts;
`none` means startup proceeds. -/
def verify_database_exists (fileFound fileReadable : Bool) : Option String :=
  if !fileFound then
    some "Database file not found in deployment environment."
  else if !fileReadable then
    some "Database file is not readable."
  else none

/-- The try/except boundary wrapped around the query of `get_top_movies`
(every aggregation function of the source has the same shape).  `fetch`
is the outcome of executing the query against the store: a raised failure
is caught at the operation boundary and converted to the empty result
list plus one non-fatal `st.error` notice, and the function still returns
— the render pass continues.  A successful query returns its rows with no
notice. -/
def run_top_movies (limit : Nat) (year_min year_max : Option Int) (min_imdb : Option Rat)
    (fetch : Except String (List Title)) : List RankRow × List String :=
  match fetch with
  | Except.ok db => (get_top_movies limit year_min year_max min_imdb db, [])
  | Except.error e => ([], ["Error fetching top movies: " ++ e])

/-- C8: a query execution failure inside an aggregation operation is caught
at that operation's boundary and becomes the empty result set plus a
surfaced non-fatal notice (the operation returns normally, so the render
pass continues), a successful query is passed through untouched, while a
missing or unreadable data store file at startup produces the halting
diagnostic — and a present, readable store does not. -/
theorem failure_semantics :
    (∀ (limit : Nat) (year_min year_max : Option Int) (min_imdb : Option Rat) (e : String),
        run_top_movies limit year_min year_max min_imdb (Except.error e)
          = ([], ["Error fetching top movies: " ++ e]))
      ∧ (∀ (limit : Nat) (year_min year_max : Option Int) (min_imdb : Option Rat)
          (db : List Title),
          run_top_movies limit year_min year_max min_imdb (Except.ok db)
            = (get_top_movies limit year_min year_max min_imdb db, []))
      ∧ (∀ readable : Bool, (verify_database_exists false readable).isSome = true)
      ∧ (verify_database_exists true false).isSome = true
      ∧ verify_database_exists true true = none :=
  ⟨fun _ _ _ _ _ => rfl, fun _ _ _ _ _ => rfl, fun _ => rfl, rfl, rfl⟩

/-! ### Claim C9: any non-positive minimum score applies no filter -/

/-- Result row shape of `get_age_certification_data`:
`SELECT age_certification, COUNT(*) as count`. -/
structure CertRow where
  age_certification : String
  count : Nat
deriving DecidableEq

/-- WHERE clause of `get_age_certification_data` (src/app.py lines
476-515): `age_certification IS NOT NULL AND age_certification != '' AND
age_certification != 'N/A'` plus the optional guarded filters. -/
def certPred (year_min year_max : Option Int) (min_imdb : Option Rat)
    (content_type : Option String) (r : Title) : Bool :=
  (match r.age_certification with
    | none => false
    | some s => s != "" && s != "N/A")
    && passesContentType content_type r && passesYearMin year_min r.release_year
    && passesYearMax year_max r.release_year && passesMinImdb min_imdb r.imdb_score

/-- `ORDER BY count DESC` as a relation on certification result rows. -/
def certDesc (a b : CertRow) : Prop := b.count ≤ a.count

instance : DecidableRel certDesc :=
  fun a b => inferInstanceAs (Decidable (b.count ≤ a.count))

instance : IsTotal CertRow certDesc := ⟨fun a b => Nat.le_total b.count a.count⟩

instance : IsTrans CertRow certDesc := ⟨fun a b c hab hbc => Nat.le_trans hbc hab⟩

/-- `get_age_certification_data`: group the filtered rows by
`age_certification`, count each group, order by count descending, keep the
top 5 groups (`LIMIT 5`). -/
def get_age_certification_data (year_min year_max : Option Int) (min_imdb : Option Rat)
    (content_type : Option String) (db : List Title) : List CertRow :=
  (List.insertionSort certDesc
    (((db.filter (certPred year_min year_max min_imdb content_type)).map
        (fun r => r.age_certification.getD "")).dedup.map
      (fun k =>
        CertRow.mk k ((db.filter (certPred year_min year_max min_imdb content_type)).countP
          (fun r => r.age_certification.getD "" == k))))).take 5

theorem passesMinImdb_neg (v : Rat) (hv : v < 0) :
    passesMinImdb (some v) = passesMinImdb none := by
  funext score
  have h2 : decide (0 < v) = false := decide_eq_false (not_lt.mpr (le_of_lt hv))
  simp [passesMinImdb, h2]

/-- C9: calling any of the nine ranking or aggregation operations with a
strictly negative `min_imdb` returns the same result as calling it with
`min_imdb = None`: the score-filter branch fires only when `min_imdb` is
truthy and strictly greater than 0, so every non-positive value — not only
exactly 0 — is treated as no filter. -/
theorem negative_min_imdb_no_filter (v : Rat) (hv : v < 0) (limit : Nat)
    (year_min year_max : Option Int) (content_type : Option String) (db : List Title) :
    get_top_movies limit year_min year_max (some v) db
        = get_top_movies limit year_min year_max none db
      ∧ get_bottom_movies limit year_min year_max (some v) db
        = get_bottom_movies limit year_min year_max none db
      ∧ get_top_shows limit year_min year_max (some v) db
        = get_top_shows limit year_min year_max none db
      ∧ get_bottom_shows limit year_min year_max (some v) db
        = get_bottom_shows limit year_min year_max none db
      ∧ get_production_countries_data year_min year_max (some v) content_type db
        = get_production_countries_data year_min year_max none content_type db
      ∧ get_decade_data year_min year_max (some v) content_type db
        = get_decade_data year_min year_max none content_type db
      ∧ get_age_certification_data year_min year_max (some v) content_type db
        = get_age_certification_data year_min year_max none content_type db
      ∧ get_top_seasons_shows limit year_min year_max (some v) db
        = get_top_seasons_shows limit year_min year_max none db
      ∧ get_avg_scores_by_type year_min year_max (some v) db
        = get_avg_scores_by_type year_min year_max none db := by
  have hneg := passesMinImdb_neg v hv
  have hm : moviesRankPred year_min year_max (some v)
      = moviesRankPred year_min year_max none := by
    funext r
    rw [moviesRankPred, moviesRankPred, hneg]
  have hs : showsRankPred year_min year_max (some v)
      = showsRankPred year_min year_max none := by
    funext r
    rw [showsRankPred, showsRankPred, hneg]
  have hc : countriesPred year_min year_max (some v) content_type
      = countriesPred year_min year_max none content_type := by
    funext r
    rw [countriesPred, countriesPred, hneg]
  have hd : decadePred year_min year_max (some v) content_type
      = decadePred year_min year_max none content_type := by
    funext r
    rw [decadePred, decadePred, hneg]
  have hcert : certPred year_min year_max (some v) content_type
      = certPred year_min year_max none content_type := by
    funext r
    rw [certPred, certPred, hneg]
  have hseas : seasonsPred year_min year_max (some v)
      = seasonsPred year_min year_max none := by
    funext r
    rw [seasonsPred, seasonsPred, hneg]
  have havg : avgPred year_min year_max (some v) = avgPred year_min year_max none := by
    funext r
    rw [avgPred, avgPred, hneg]
  have hsgr : seasonsGroupRow year_min year_max (some v) db
      = seasonsGroupRow year_min year_max none db := by
    funext t
    rw [seasonsGroupRow, seasonsGroupRow, titleGroup, titleGroup, seasonsEligible,
      seasonsEligible, hseas]
  have havgr : avgGroupRow year_min year_max (some v) db
      = avgGroupRow year_min year_max none db := by
    funext t
    rw [avgGroupRow, avgGroupRow, typeGroup, typeGroup, havg]
  refine ⟨?_, ?_, ?_, ?_, ?_, ?_, ?_, ?_, ?_⟩ <;>
    simp only [get_top_movies, get_bottom_movies, get_top_shows, get_bottom_shows,
      rankedMovies, rankedShows, get_production_countries_data, get_decade_data,
      get_age_certification_data, get_top_seasons_shows, seasonsGroupRow, titleGroup,
      seasonsEligible, get_avg_scores_by_type, hm, hs, hc, hd,
      hcert, hseas, havg, hsgr, havgr]

/-- Witness for C9: at `min_imdb = -1` on a concrete table, the ranking
result agrees with the unfiltered call. -/
theorem negative_min_imdb_no_filter_witness :
    (-1 : Rat) < 0
      ∧ get_top_movies 3 none none (some (-1)) distinctDb
        = get_top_movies 3 none none none distinctDb :=
  ⟨by decide,
    (negative_min_imdb_no_filter (-1) (by decide) 3 none none none distinctDb).1⟩

/-- A single row with a non-empty encoded country list. -/
def pcDb : List Title :=
  [ { title := "P", type := "MOVIE", release_year := some 2000, imdb_score := none,
      tmdb_score := none, age_certification := none, production_countries := some "[US]",
      seasons := none } ]

/-- Witness for C4 at a concrete one-row table: the single output group
carries the raw encoded string of its row and counts it once. -/
theorem production_countries_contract_witness :
    CountryRow.mk "[US]" 1 ∈ get_production_countries_data none none none none pcDb
      ∧ (CountryRow.mk "[US]" 1).production_countries ≠ ""
      ∧ (CountryRow.mk "[US]" 1).production_countries ≠ "[]"
      ∧ (∃ r, r ∈ pcDb ∧ countriesPred none none none none r = true
          ∧ r.production_countries = some (CountryRow.mk "[US]" 1).production_countries)
      ∧ (CountryRow.mk "[US]" 1).count
        = (pcDb.filter (countriesPred none none none none)).countP
          (fun r => r.production_countries.getD ""
            == (CountryRow.mk "[US]" 1).production_countries) :=
  ⟨by decide,
    (production_countries_contract none none none none pcDb).2.2.2.1
      (CountryRow.mk "[US]" 1) (by decide)⟩

/-- Witness for C6 at the concrete two-row table for title "X": the
returned total is the sum 3 + 4 = 7 over the title's eligible rows. -/
theorem top_seasons_shows_contract_witness :
    (SeasonRow.mk "X" 7 (some 2021)).total_seasons
      = (((showsDbX.filter (seasonsPred none none none)).filter
          (fun r => r.title == (SeasonRow.mk "X" 7 (some 2021)).title)).map
            (fun r => r.seasons.getD 0)).sum :=
  (top_seasons_shows_contract 10 none none none showsDbX).2.2.1
    (SeasonRow.mk "X" 7 (some 2021)) (by decide)

end StreamingDashboard
